import Mathlib

/-!
Shallow embedding of `src/sqlite_handler.py` (class `SqliteLogger`): the
measurement decoder `_read_measurement`, the configuration-response decoding
inside `_send_ops24x_cmd`, the `__enter__` handshake sequence, the `__exit__`
release hook, and the `listen` polling loop.  Python runtime errors that the
claims depend on (ValueError from `float`, TypeError from a call whose
argument count does not match the function signature) are modelled explicitly.
String contents are manipulated as character lists so that every definition
evaluates by kernel reduction.
-/

namespace SqliteHandler

/-- Python runtime errors relevant to this program: `ValueError` raised by
`float()` on a non-numeric string, `TypeError` raised when a call passes an
argument count that does not match the callee's signature, and sqlite3's
`ProgrammingError` raised by `cursor.execute` when the supplied parameter
count differs from the statement's placeholder count. -/
inductive PyError where
  | valueError
  | typeError
  | programmingError
deriving DecidableEq, Repr

deriving instance DecidableEq for Except

/-- Python's `str.split(sep)` for a one-character separator: splitting the
empty string gives `[""]`, and every separator occurrence opens a new field. -/
def splitOnChar (c : Char) : List Char → List (List Char)
  | [] => [[]]
  | x :: xs =>
    match splitOnChar c xs with
    | [] => [[x]]
    | y :: ys => if x = c then [] :: y :: ys else (x :: y) :: ys

/-- Python's negative-stop slice `l[:-n]`: all characters except the last `n`
(empty when the string has at most `n` characters). -/
def sliceDropRight (l : List Char) (n : Nat) : List Char :=
  l.take (l.length - n)

/-- Python's `str.strip()`: remove leading and trailing whitespace. -/
def stripChars (l : List Char) : List Char :=
  ((l.dropWhile Char.isWhitespace).reverse.dropWhile Char.isWhitespace).reverse

/-- Value of a decimal digit string, most significant digit first (helper for
the model of Python's `float`). -/
def decDigitsVal (l : List Char) : Nat :=
  l.foldl (fun a c => a * 10 + (c.toNat - 48)) 0

/-- Model of Python's builtin `float()` on the strings this program feeds it:
surrounding whitespace is stripped, then an optional sign followed by decimal
digits with at most one `.` (at least one digit overall) parses to the exact
rational value; anything else raises `ValueError`.  Exotic accepted forms
(exponents, `inf`, `nan`, underscores) do not occur in this code's inputs and
are not modelled. -/
def pyFloat (s : String) : Except PyError ℚ :=
  let t := stripChars s.data
  let sb : Int × List Char :=
    match t with
    | c :: rest =>
        if c = '-' then (-1, rest) else if c = '+' then (1, rest) else (1, t)
    | [] => (1, [])
  match splitOnChar '.' sb.2 with
  | [ip] =>
      if !ip.isEmpty && ip.all Char.isDigit then
        Except.ok (mkRat (sb.1 * (decDigitsVal ip : Int)) 1)
      else Except.error PyError.valueError
  | [ip, fp] =>
      if (!ip.isEmpty || !fp.isEmpty) && ip.all Char.isDigit && fp.all Char.isDigit then
        Except.ok (mkRat (sb.1 * ((decDigitsVal ip : Int) * (10 : Int) ^ fp.length
          + (decDigitsVal fp : Int))) ((10 : Nat) ^ fp.length))
      else Except.error PyError.valueError
  | _ => Except.error PyError.valueError

/-- `SqliteLogger._read_measurement`, applied to the decoded line returned by
`self.serial_port.readline()` (an empty string when the read timed out).  The
source reads:

    measurement = None
    ops24x_rx_str = ops24x_rx_bytes.decode()
    if ops24x_rx_str.find(',') == -1:
        measurement = tuple(float(x) for x in ops24x_rx_str[:-2].split(","))
    return measurement

`find(',') == -1` is comma absence; `[:-2]` drops the last two characters;
the tuple comprehension raises `ValueError` as soon as one field fails
`float()`.  The resulting tuple (of whatever arity) is returned as a list. -/
def read_measurement (line : String) : Except PyError (Option (List ℚ)) :=
  let cs := line.data
  if cs.contains ',' then Except.ok none
  else
    match (splitOnChar ',' (sliceDropRight cs 2)).mapM (fun f => pyFloat (String.mk f)) with
    | Except.ok vs => Except.ok (some vs)
    | Except.error e => Except.error e

/-- The opening-brace character (ASCII 123). -/
def lbraceChar : Char := Char.ofNat 123

/-- The closing-brace character (ASCII 125). -/
def rbraceChar : Char := Char.ofNat 125

/-- The double-quote character. -/
def quoteChar : Char := '"'

/-- Per-line configuration-response decoding inside
`SqliteLogger._send_ops24x_cmd`.  The source reads:

    if "{" in sample_str:
        sample_str = sample_str[1:-3].replace('"', '')
        for entry in sample_str.split(","):
            out_list.append(tuple(entry.split(":")))

`sample_str[1:-3]` drops the first character and the last three;
`replace('"', '')` removes every double-quote character (a character filter,
which is what replacing a one-character pattern by the empty string does);
a line with no opening brace contributes nothing. -/
def decodeConfigLine (s : String) : List (List String) :=
  let cs := s.data
  if cs.contains lbraceChar then
    let body := (sliceDropRight (cs.drop 1) 3).filter (fun c => c ≠ quoteChar)
    (splitOnChar ',' body).map (fun entry => (splitOnChar ':' entry).map String.mk)
  else []

/-- Decoding of a whole `readlines()` result in `_send_ops24x_cmd`: the
per-line tuple lists are concatenated into `out_list`. -/
def decodeConfigResponse (lines : List String) : List (List String) :=
  (lines.map decodeConfigLine).flatten

/-- The spec's synthetic two-block configuration response from §8, built from
the brace characters. -/
def cfgTwoBlocks : String :=
  String.singleton lbraceChar ++ "\"A\":\"1\"" ++ String.singleton rbraceChar
    ++ String.singleton lbraceChar ++ "\"B\":\"2\"" ++ String.singleton rbraceChar

/-- A single-block configuration response carrying the same two pairs,
terminated by a closing brace and a CR-LF line ending. -/
def cfgSingleBlock : String :=
  String.singleton lbraceChar ++ "\"A\":\"1\",\"B\":\"2\"" ++ String.singleton rbraceChar
    ++ "\r\n"

/-- The parameter count of `SqliteLogger._send_ops24x_cmd` besides `self`:
its signature is `def _send_ops24x_cmd(self, ops24x_command: str)`. -/
def sendCmdParamCount : Nat := 1

/-- The fixed configuration-query codes, from the set literal
`OPS24X_CONFIG_QUERIES` in the source (a Python set; its iteration order is
not semantically fixed — this list records the literal's order). -/
def OPS24X_CONFIG_QUERIES : List String :=
  ["??", "?N", "?D", "?V", "?B", "R?", "?F", "F?", "U?", "?Z"]

/-- The argument lists of the successive `_send_ops24x_cmd` calls made by
`SqliteLogger.__enter__` (including the one inside `_sync_time`):

    for v in self.config["OPS24X_PARAMETERS"].values():
        self._send_ops24x_cmd(v)
    self._send_ops24x_cmd("OT")
    self._send_ops24x_cmd("BT")
    self._sync_time()                     -- _send_ops24x_cmd("OPS24X_RESET_RADAR_TIMER", "C=0\n")
    for k in self.OPS24X_CONFIG_QUERIES:
        response = self._send_ops24x_cmd("CONFIG_QUERY", k)

`params` is the value list of `OPS24X_PARAMETERS` in mapping iteration order;
`queries` the iteration order of the query-code set. -/
def handshakeCalls (params queries : List String) : List (List String) :=
  params.map (fun p => [p]) ++ [["OT"], ["BT"], ["OPS24X_RESET_RADAR_TIMER", "C=0\n"]]
    ++ queries.map (fun k => ["CONFIG_QUERY", k])

/-- Execution of a call sequence under Python's calling convention for
`_send_ops24x_cmd`: a call whose argument count matches the signature sends
its argument to the device; the first call whose argument count does not
match raises `TypeError`, ending the sequence.  Returns the commands actually
sent, and how the sequence ended. -/
def runCalls : List (List String) → List String × Except PyError Unit
  | [] => ([], Except.ok ())
  | args :: rest =>
      if args.length = sendCmdParamCount then
        ((args.headD "") :: (runCalls rest).1, (runCalls rest).2)
      else ([], Except.error PyError.typeError)

/-- The `_send_ops24x_cmd` call sequence of `SqliteLogger.__enter__`, run to
completion or to its first `TypeError`. -/
def handshakeRun (params queries : List String) : List String × Except PyError Unit :=
  runCalls (handshakeCalls params queries)

/-- The resources `__enter__` acquires before the handshake: the serial port
and the sqlite connection/cursor. -/
structure Session where
  serialOpen : Bool
  dbOpen : Bool
deriving DecidableEq, Repr

/-- The parameter count of `SqliteLogger.__exit__` besides `self`: its
signature is `def __exit__(self)`. -/
def exitParamCount : Nat := 0

/-- The number of arguments Python's `with` statement passes to `__exit__`
(exception type, exception value, traceback). -/
def contextExitArgCount : Nat := 3

/-- Outcome of `with SqliteLogger(config) as sl: sl.listen()`. -/
structure WithResult where
  session : Session
  bodyEntered : Bool
  result : Except PyError Unit
deriving DecidableEq, Repr

/-- `SqliteLogger.__enter__`: opens the serial port, opens the database and
builds the tables (both modelled as succeeding), then performs the handshake
call sequence. -/
def enterRun (params queries : List String) : Session × Except PyError Unit :=
  (⟨true, true⟩, (handshakeRun params queries).2)

/-- The `with SqliteLogger(config) as sl: sl.listen()` block from the
source's `__main__` section, under Python's context-manager protocol: when
`__enter__` raises, the body is not entered and `__exit__` is not invoked;
when `__enter__` returns, the body runs and `__exit__` is then called with
`contextExitArgCount` arguments — releasing the resources only if that count
matches `__exit__`'s signature, and otherwise raising `TypeError` with the
resources still open. -/
def withSqliteLogger (params queries : List String) : WithResult :=
  match enterRun params queries with
  | (s, Except.error e) => ⟨s, false, Except.error e⟩
  | (s, Except.ok _) =>
      if contextExitArgCount = exitParamCount then
        ⟨⟨false, false⟩, true, Except.ok ()⟩
      else ⟨s, true, Except.error PyError.typeError⟩

/-- The mutable state of `SqliteLogger.listen`: the `cursor_buffer` counter,
plus instrumentation counting executed sample inserts and commits. -/
structure ListenState where
  buffer : Nat
  inserts : Nat
  commits : Nat
deriving DecidableEq, Repr

/-- How a run of the `listen` loop ended: by the `MAX_TIME` break, by an
uncaught Python error, or with the supplied trace of poll iterations
exhausted (the loop itself is unbounded; a run is examined on a finite
prefix of its iterations). -/
inductive ListenExit where
  | cutoff
  | exhausted
  | err (e : PyError)
deriving DecidableEq, Repr

/-- The `MAX_TIME` test at the top of each `listen` iteration:

    if ("MAX_TIME" in self.config
            and time.time() - start_time > self.config["MAX_TIME"]):
        break

`mt = none` models a configuration with no `MAX_TIME` key. -/
def cutoffHit (mt : Option ℚ) (t0 now : ℚ) : Bool :=
  match mt with
  | some m => decide (now - t0 > m)
  | none => false

/-- The number of `?` placeholders in `INSERT_INTO_SPEED_SAMPLES`, which is
`"INSERT INTO speed_samples VALUES(?, ?)"`. -/
def INSERT_INTO_SPEED_SAMPLES_placeholders : Nat := 2

/-- The body of one `listen` iteration after the `MAX_TIME` check:

    meas_tup = self._read_measurement()
    if meas_tup:
        self.db_cursor.execute(self.INSERT_INTO_SPEED_SAMPLES, meas_tup)
        cursor_buffer += 1
        if cursor_buffer >= self.config["CURSOR_BUFFER_SIZE"]:
            self.db_conn.commit()
            cursor_buffer = 0

`if meas_tup:` is Python truthiness — `None` and the empty tuple are falsy.
A `ValueError` escaping `_read_measurement` propagates, and
`db_cursor.execute` raises sqlite3 `ProgrammingError` when `meas_tup` does
not carry exactly one binding per placeholder of the INSERT statement. -/
def listenStep (N : Nat) (st : ListenState) (line : String) : Except PyError ListenState :=
  match read_measurement line with
  | Except.error e => Except.error e
  | Except.ok none => Except.ok st
  | Except.ok (some vs) =>
      if vs.isEmpty then Except.ok st
      else if vs.length ≠ INSERT_INTO_SPEED_SAMPLES_placeholders then
        Except.error PyError.programmingError
      else
        let buf := st.buffer + 1
        if N ≤ buf then Except.ok ⟨0, st.inserts + 1, st.commits + 1⟩
        else Except.ok ⟨buf, st.inserts + 1, st.commits⟩

/-- `SqliteLogger.listen`, run over a finite prefix of its poll iterations.
Each trace entry supplies the value of `time.time()` at that iteration's
`MAX_TIME` check and the line `readline()` then returns; `t0` is
`start_time`.  The input flushes at the top of the iteration have no further
effect on this state and are not modelled. -/
def listenRun (N : Nat) (mt : Option ℚ) (t0 : ℚ) (iters : List (ℚ × String))
    (st : ListenState) : ListenState × ListenExit :=
  match iters with
  | [] => (st, ListenExit.exhausted)
  | (now, line) :: rest =>
      if cutoffHit mt t0 now then (st, ListenExit.cutoff)
      else
        match listenStep N st line with
        | Except.error e => (st, ListenExit.err e)
        | Except.ok st2 => listenRun N mt t0 rest st2

/-- A line for which `_read_measurement` succeeds with a truthy (nonempty)
tuple — the loop's notion of a successfully parsed measurement. -/
def parsedOk (line : String) : Bool :=
  match read_measurement line with
  | Except.ok (some vs) => !vs.isEmpty
  | _ => false

/-! Theorems about the embedded program. -/

/-- C1: for the well-formed measurement line `"12.5,34.2\r\n"` the measurement
decoder `_read_measurement` does not return the pair of floats `(12.5, 34.2)`
— because the line contains a comma, the `find(',') == -1` guard skips parsing
and the function returns `None`. -/
theorem c1_comma_measurement_line_returns_none :
    read_measurement "12.5,34.2\r\n" = Except.ok none := by decide

/-- C3: when `read_line()` returns an empty result (read timeout), the
measurement reader does not treat it as routine absence of data: the comma
test succeeds on the empty string, `''[:-2].split(',')` is `['']`, and
`float('')` raises `ValueError`, crashing the ingest loop instead of
continuing. -/
theorem c3_empty_read_raises_value_error :
    read_measurement "" = Except.error PyError.valueError := by decide

/-- C4: for the non-numeric line `"not-a-number\r\n"` the measurement decoder
does not yield a failure result — it raises `ValueError` from
`float("not-a-number")`, a crash rather than a reported failure. -/
theorem c4_non_numeric_line_raises_value_error :
    read_measurement "not-a-number\r\n" = Except.error PyError.valueError := by decide

/-- C7 counterexample: on the spec's synthetic two-block response
`{"A":"1"}{"B":"2"}` the configuration decoder does not split on the block
boundary: it strips only the first character and the last three, so it
produces the single malformed triple `("A", "1}{B", "")` instead of
`[("A", "1"), ("B", "2")]`. -/
theorem c7_two_block_response_not_split :
    decodeConfigLine cfgTwoBlocks = [["A", "1\x7d\x7bB", ""]] ∧
    decodeConfigLine cfgTwoBlocks ≠ [["A", "1"], ["B", "2"]] := by decide

/-- C7 amended: every line with no opening brace contributes no pairs, and a
configuration response consisting of a single `{...}` block with a
three-character trailer (closing brace plus CR-LF) is decoded into its
key/value pairs with quote characters stripped:
`{"A":"1","B":"2"}\r\n` yields `[("A", "1"), ("B", "2")]`. -/
theorem c7_single_block_decoded (s : String)
    (h : s.data.contains lbraceChar = false) :
    decodeConfigLine s = [] ∧
    decodeConfigLine cfgSingleBlock = [["A", "1"], ["B", "2"]] := by
  refine ⟨?_, by decide⟩
  unfold decodeConfigLine
  simp only [h]
  simp

/-- Witness for `c7_single_block_decoded` at the brace-free line `"noise"`. -/
theorem c7_single_block_decoded_witness :
    decodeConfigLine "noise" = [] ∧
    decodeConfigLine cfgSingleBlock = [["A", "1"], ["B", "2"]] :=
  c7_single_block_decoded "noise" (by decide)

/-- Executing a block of calls that each pass a single argument prepends the
corresponding commands to whatever the remaining calls produce. -/
lemma runCalls_params (params : List String) (rest : List (List String)) :
    runCalls (params.map (fun p => [p]) ++ rest) =
      (params ++ (runCalls rest).1, (runCalls rest).2) := by
  induction params with
  | nil => simp
  | cons p ps ih => simp [runCalls, sendCmdParamCount, ih]

/-- The `__enter__` call sequence always stops with `TypeError` at the
two-argument `_send_ops24x_cmd` call inside `_sync_time`, having sent exactly
the `OPS24X_PARAMETERS` values followed by `"OT"` and `"BT"`. -/
lemma handshakeRun_eq (params queries : List String) :
    handshakeRun params queries =
      (params ++ ["OT", "BT"], Except.error PyError.typeError) := by
  have htail : runCalls ([["OT"], ["BT"], ["OPS24X_RESET_RADAR_TIMER", "C=0\n"]]
      ++ queries.map (fun k => ["CONFIG_QUERY", k]))
      = (["OT", "BT"], Except.error PyError.typeError) := rfl
  unfold handshakeRun handshakeCalls
  rw [List.append_assoc, runCalls_params, htail]

/-- C2: for every configuration (any `OPS24X_PARAMETERS` value sequence and
any query-code order), the `__enter__` handshake raises `TypeError` — both
`_sync_time` and the configuration-query loop call `_send_ops24x_cmd` with
two positional arguments against its one-parameter signature — so the
handshake never completes and the `listen` body of the `with` block is never
entered. -/
theorem c2_handshake_raises_type_error (params queries : List String) :
    (handshakeRun params queries).2 = Except.error PyError.typeError ∧
    (withSqliteLogger params queries).bodyEntered = false := by
  have h := handshakeRun_eq params queries
  exact ⟨by rw [h], by simp [withSqliteLogger, enterRun, h]⟩

/-- C6: the handshake does send the `OPS24X_PARAMETERS` values in order and
then `"OT"` and `"BT"`, but it stops there: the `TypeError` from the
two-argument `_sync_time` call means the reset-radar-timer command and the
ten configuration-query codes are never sent (and no per-query metadata
insert or commit ever happens). -/
theorem c6_reset_and_query_commands_never_sent (params queries : List String) :
    (handshakeRun params queries).1 = params ++ ["OT", "BT"] ∧
    (handshakeRun params queries).2 = Except.error PyError.typeError := by
  have h := handshakeRun_eq params queries
  exact ⟨by rw [h], by rw [h]⟩

/-- C9: resources are not released on every exit path.  The handshake inside
`__enter__` raises `TypeError`, and Python does not invoke `__exit__` when
`__enter__` raises, so the serial port and the database connection opened
before the failure stay open; moreover `__exit__` is declared with no
parameters besides `self`, so even a completed body would end with a
`TypeError` from the three-argument protocol call rather than a release. -/
theorem c9_resources_left_open (params queries : List String) :
    (withSqliteLogger params queries).session = ⟨true, true⟩ ∧
    (withSqliteLogger params queries).result = Except.error PyError.typeError ∧
    exitParamCount ≠ contextExitArgCount := by
  have h := handshakeRun_eq params queries
  refine ⟨?_, ?_, by decide⟩ <;> simp [withSqliteLogger, enterRun, h]

/-- Splitting on a separator that does not occur returns the whole input as
the single field. -/
lemma splitOnChar_eq_single (c : Char) (l : List Char) (h : l.contains c = false) :
    splitOnChar c l = [l] := by
  induction l with
  | nil => rfl
  | cons x xs ih =>
    simp only [List.contains_cons, Bool.or_eq_false_iff, beq_eq_false_iff_ne] at h
    simp only [splitOnChar, ih h.2]
    rw [if_neg (fun hxc => h.1 hxc.symm)]

/-- A prefix of a separator-free character list is separator-free. -/
lemma contains_take_eq_false (c : Char) (l : List Char) (n : Nat)
    (h : l.contains c = false) : (l.take n).contains c = false := by
  induction l generalizing n with
  | nil => simp
  | cons x xs ih =>
    cases n with
    | zero => rfl
    | succ m =>
      simp only [List.contains_cons, Bool.or_eq_false_iff] at h
      simp only [List.take_succ_cons, List.contains_cons, Bool.or_eq_false_iff]
      exact ⟨h.1, ih m h.2⟩

/-- Every tuple `_read_measurement` returns is a 1-tuple: the parse branch
runs only on comma-free lines, whose `split(",")` has exactly one field. -/
lemma read_measurement_parsed_length (line : String) (vs : List ℚ)
    (h : read_measurement line = Except.ok (some vs)) : vs.length = 1 := by
  unfold read_measurement at h
  by_cases hcm : line.data.contains ','
  · rw [if_pos hcm] at h
    simp at h
  · rw [if_neg hcm] at h
    have hsub : (sliceDropRight line.data 2).contains ',' = false := by
      unfold sliceDropRight
      exact contains_take_eq_false ',' line.data _ (by simpa using hcm)
    rw [splitOnChar_eq_single ',' _ hsub] at h
    cases hf : pyFloat (String.mk (sliceDropRight line.data 2)) with
    | error e => simp [List.mapM.loop, hf] at h
    | ok q =>
      simp [List.mapM.loop, hf] at h
      rw [← h]
      rfl

/-- On a successfully parsed (truthy) line, the iteration body crashes in
`db_cursor.execute`: the measurement is a 1-tuple, the INSERT statement has
two placeholders, so sqlite3 raises `ProgrammingError` before any buffer
increment or commit. -/
lemma listenStep_parsed_crashes (N : Nat) (st : ListenState) (line : String)
    (hp : parsedOk line = true) :
    listenStep N st line = Except.error PyError.programmingError := by
  unfold parsedOk at hp
  cases hm : read_measurement line with
  | error e => rw [hm] at hp; simp at hp
  | ok o =>
    cases o with
    | none => rw [hm] at hp; simp at hp
    | some vs =>
      rw [hm] at hp
      simp only [Bool.not_eq_eq_eq_not, Bool.not_true] at hp
      have hlen := read_measurement_parsed_length line vs hm
      unfold listenStep
      rw [hm]
      simp only [hp, Bool.false_eq_true, if_false]
      rw [if_pos (by rw [hlen]; decide)]

/-- The commit-counter invariant of one loop iteration: if the buffer is below
`CURSOR_BUFFER_SIZE` and counts the inserts since the last commit, the same
holds after the iteration body. -/
lemma listenStep_inv (N : Nat) (st st' : ListenState) (line : String)
    (hb : st.buffer < N) (hr : st.inserts = N * st.commits + st.buffer)
    (h : listenStep N st line = Except.ok st') :
    st'.buffer < N ∧ st'.inserts = N * st'.commits + st'.buffer := by
  unfold listenStep at h
  cases hm : read_measurement line with
  | error e => rw [hm] at h; simp at h
  | ok o =>
    rw [hm] at h
    cases o with
    | none =>
      simp only [Except.ok.injEq] at h
      subst h; exact ⟨hb, hr⟩
    | some vs =>
      by_cases he : vs.isEmpty
      · simp only [he, if_true, Except.ok.injEq] at h
        subst h; exact ⟨hb, hr⟩
      · simp only [he, if_false, Bool.false_eq_true] at h
        by_cases hl : vs.length = INSERT_INTO_SPEED_SAMPLES_placeholders
        case neg => rw [if_pos hl] at h; simp at h
        rw [if_neg (not_not_intro hl)] at h
        by_cases hc : N ≤ st.buffer + 1
        · rw [if_pos hc] at h
          simp only [Except.ok.injEq] at h
          subst h
          refine ⟨by dsimp only; omega, ?_⟩
          dsimp only
          simp only [Nat.mul_succ]
          omega
        · rw [if_neg hc] at h
          simp only [Except.ok.injEq] at h
          subst h
          exact ⟨by dsimp only; omega, by dsimp only; omega⟩

/-- The commit-counter invariant holds at the exit of any run of the listen
loop, whatever mix of timeouts, junk lines, parse errors and cutoff checks
the trace contains. -/
lemma listenRun_inv (N : Nat) (mt : Option ℚ) (t0 : ℚ) (iters : List (ℚ × String))
    (st : ListenState) (hb : st.buffer < N)
    (hr : st.inserts = N * st.commits + st.buffer) :
    (listenRun N mt t0 iters st).1.buffer < N ∧
    (listenRun N mt t0 iters st).1.inserts =
      N * (listenRun N mt t0 iters st).1.commits + (listenRun N mt t0 iters st).1.buffer := by
  induction iters generalizing st with
  | nil => simpa [listenRun] using ⟨hb, hr⟩
  | cons it rest ih =>
    obtain ⟨now, line⟩ := it
    simp only [listenRun]
    by_cases hc : cutoffHit mt t0 now
    · simp only [hc, if_true]
      exact ⟨hb, hr⟩
    · simp only [hc, Bool.false_eq_true, if_false]
      cases hs : listenStep N st line with
      | error e => simp only []; exact ⟨hb, hr⟩
      | ok st2 =>
        have h2 := listenStep_inv N st st2 line hb hr hs
        exact ih st2 h2.1 h2.2

/-- C5: the claimed commit cadence is unreachable in the program.  Every
successfully parsed (truthy) measurement is a 1-tuple (the parse branch runs
only on comma-free lines), the INSERT statement has two placeholders, and so
the very first parsed measurement makes `db_cursor.execute` raise sqlite3
`ProgrammingError`: the loop dies with the state unchanged — `cursor_buffer`
is never incremented and `Store.commit()` is never invoked, for any
`CURSOR_BUFFER_SIZE`, any `MAX_TIME` setting and any trace continuation. -/
theorem c5_first_parsed_measurement_crashes_before_any_commit (N : Nat)
    (mt : Option ℚ) (t0 now : ℚ) (line : String) (rest : List (ℚ × String))
    (st : ListenState) (hc : cutoffHit mt t0 now = false)
    (hp : parsedOk line = true) :
    listenRun N mt t0 ((now, line) :: rest) st =
      (st, ListenExit.err PyError.programmingError) := by
  simp only [listenRun, hc, Bool.false_eq_true, if_false,
    listenStep_parsed_crashes N st line hp]

/-- Witness for `c5_first_parsed_measurement_crashes_before_any_commit`: the
claim's own scenario — `CURSOR_BUFFER_SIZE = 10`, a trace of 25 parsed
measurements — reaches zero commits: the run dies with `ProgrammingError` at
the first of them. -/
theorem c5_first_parsed_measurement_crashes_witness :
    listenRun 10 none 0 (((0 : ℚ), "1.0\r\n") :: List.replicate 24 ((0 : ℚ), "1.0\r\n"))
      ⟨0, 0, 0⟩ = (⟨0, 0, 0⟩, ListenExit.err PyError.programmingError) :=
  c5_first_parsed_measurement_crashes_before_any_commit 10 none 0 0 "1.0\r\n"
    (List.replicate 24 ((0 : ℚ), "1.0\r\n")) ⟨0, 0, 0⟩ rfl (by decide)

/-- C8: a configured `MAX_TIME` does not guarantee clean termination: if a
poll before the cutoff reads an empty line (a routine read timeout), the
loop ends with `ValueError` from `_read_measurement`, an error exit rather
than the clean cutoff shutdown — here with `MAX_TIME = 5` and an empty read
at elapsed time 1. -/
theorem c8_timeout_read_crashes_despite_max_time :
    listenRun 10 (some 5) 0 [((1 : ℚ), "")] ⟨0, 0, 0⟩ =
      (⟨0, 0, 0⟩, ListenExit.err PyError.valueError) := by
  have hc : cutoffHit (some 5) 0 1 = false := by
    unfold cutoffHit
    norm_num
  have hs : listenStep 10 ⟨0, 0, 0⟩ "" = Except.error PyError.valueError := by decide
  simp only [listenRun, hc, Bool.false_eq_true, if_false, hs]

/-- C10: when the listen loop exits through the `MAX_TIME` cutoff, no commit
happens on the way out: the commit count stays exactly `inserts / N`, and the
samples inserted since the last commit — between 0 and
`CURSOR_BUFFER_SIZE - 1` of them — remain uncommitted. -/
theorem c10_cutoff_leaves_partial_buffer_uncommitted (N : Nat) (m : ℚ)
    (iters : List (ℚ × String)) (st' : ListenState) (hN : 0 < N)
    (h : listenRun N (some m) 0 iters ⟨0, 0, 0⟩ = (st', ListenExit.cutoff)) :
    st'.buffer ≤ N - 1 ∧ st'.commits = st'.inserts / N ∧
    st'.buffer = st'.inserts % N := by
  have hi := listenRun_inv N (some m) 0 iters ⟨0, 0, 0⟩ hN rfl
  rw [h] at hi
  dsimp only at hi
  obtain ⟨hb, hr⟩ := hi
  refine ⟨by omega, ?_, ?_⟩
  · rw [hr, Nat.mul_add_div hN, Nat.div_eq_of_lt hb, Nat.add_zero]
  · rw [hr, Nat.mul_add_mod, Nat.mod_eq_of_lt hb]

/-- Witness for `c10_cutoff_leaves_partial_buffer_uncommitted`: with
`CURSOR_BUFFER_SIZE = 2` and `MAX_TIME = 5`, a run whose one poll before the
cutoff decodes no measurement (a comma line returns `None`) exits through the
cutoff with zero commits and the pending count within the claimed bound. -/
theorem c10_cutoff_witness :
    (⟨0, 0, 0⟩ : ListenState).buffer ≤ 2 - 1 ∧
    (⟨0, 0, 0⟩ : ListenState).commits = (⟨0, 0, 0⟩ : ListenState).inserts / 2 ∧
    (⟨0, 0, 0⟩ : ListenState).buffer = (⟨0, 0, 0⟩ : ListenState).inserts % 2 := by
  have hrun : listenRun 2 (some 5) 0 [((0 : ℚ), "12.5,34.2\r\n"), ((10 : ℚ), "")] ⟨0, 0, 0⟩
      = (⟨0, 0, 0⟩, ListenExit.cutoff) := by
    have hc1 : cutoffHit (some 5) 0 0 = false := by
      unfold cutoffHit
      norm_num
    have hc2 : cutoffHit (some 5) 0 10 = true := by
      unfold cutoffHit
      norm_num
    have hs : listenStep 2 ⟨0, 0, 0⟩ "12.5,34.2\r\n" = Except.ok ⟨0, 0, 0⟩ := by decide
    simp only [listenRun, hc1, hc2, Bool.false_eq_true, if_false, if_true, hs]
  exact c10_cutoff_leaves_partial_buffer_uncommitted 2 5
    [((0 : ℚ), "12.5,34.2\r\n"), ((10 : ℚ), "")] ⟨0, 0, 0⟩ (by norm_num) hrun

end SqliteHandler
